import Mathlib

/-!
Verification of the meteo-ci backend core (range chunking, volume
estimation, CSV export, remote-reply decoding, availability and download
routes) against a shallow Lean embedding of the Python sources in
`src/backend/`.

Modelling conventions:
- Python `datetime` values are embedded as `Int` seconds since an epoch
  (the application only manipulates second-resolution datetimes);
  `timedelta(days = n)` is `n * 86400` seconds, and `timedelta.days` is
  floor division by 86400, matching Python semantics.
- Python string operations (`split`, `strip`, `replace`, `in`, `int(...)`)
  are re-implemented over `List Char` with structural (fuel-based)
  recursion so that all definitions reduce in the kernel.
- Python exceptions are embedded as `Except PyErr`; `WebServiceError`
  is one constructor of `PyErr`.
- Python `float` arithmetic in the volume estimator is embedded as exact
  rational arithmetic (all values appearing in the statements below are
  exactly representable in binary floating point); `round(x, 2)` is
  embedded as nearest-rational-with-two-decimals (ties away from zero do
  not occur at any input used in a statement).
-/

/-! ## String primitives (Python `str` operations over `List Char`) -/

/-- If `pat` is a prefix of `l`, return the remainder of `l`, else `none`. -/
def dropPat : List Char → List Char → Option (List Char)
  | [], l => some l
  | _ :: _, [] => none
  | p :: ps, c :: cs => if p = c then dropPat ps cs else none

/-- Python `pat in s` (substring test). -/
def containsSubC (pat : List Char) : List Char → Bool
  | [] => (dropPat pat []).isSome
  | c :: cs => (dropPat pat (c :: cs)).isSome || containsSubC pat cs

/-- Fuel-driven worker for Python `s.split(pat)` (leftmost, non-overlapping). -/
def splitFuelC (pat : List Char) : Nat → List Char → List Char → List (List Char)
  | 0, l, acc => [acc.reverse ++ l]
  | fuel + 1, l, acc =>
    match l with
    | [] => [acc.reverse]
    | c :: cs =>
      match dropPat pat l with
      | some rest => acc.reverse :: splitFuelC pat fuel rest []
      | none => splitFuelC pat fuel cs (c :: acc)

/-- Python `s.split(pat)` for a non-empty separator `pat`. -/
def splitStr (pat : String) (s : String) : List String :=
  (splitFuelC pat.data (s.data.length + 1) s.data []).map List.asString

/-- Python `s.strip()` restricted to whitespace. -/
def trimStr (s : String) : String :=
  (((s.data.dropWhile Char.isWhitespace).reverse.dropWhile Char.isWhitespace).reverse).asString

/-- Fuel-driven worker for Python `s.replace(pat, repl)`. -/
def replaceFuelC (pat repl : List Char) : Nat → List Char → List Char
  | 0, l => l
  | _ + 1, [] => []
  | fuel + 1, c :: cs =>
    match dropPat pat (c :: cs) with
    | some rest => repl ++ replaceFuelC pat repl fuel rest
    | none => c :: replaceFuelC pat repl fuel cs

/-- Python `s.replace(pat, repl)` (every occurrence, left to right). -/
def replaceStr (s pat repl : String) : String :=
  (replaceFuelC pat.data repl.data s.data.length s.data).asString

/-- Decimal digit run parser: `some n` iff the list is a non-empty run of digits. -/
def parseDigits (cs : List Char) : Option Nat :=
  if cs.isEmpty then none
  else
    cs.foldl
      (fun acc c =>
        acc.bind (fun n => if c.isDigit then some (n * 10 + (c.toNat - 48)) else none))
      (some 0)

/-- Python `int(s)` on an already-stripped string: optional sign then digits. -/
def parseInt (s : String) : Option Int :=
  match s.data with
  | [] => none
  | c :: cs =>
    if c = '-' then (parseDigits cs).map (fun n => -(n : Int))
    else if c = '+' then (parseDigits cs).map (fun n => (n : Int))
    else (parseDigits (c :: cs)).map (fun n => (n : Int))

/-- Python `sep.join(parts)` with a single-space separator. -/
def joinSpace : List String → String
  | [] => ""
  | [a] => a
  | a :: b :: rest => a ++ " " ++ joinSpace (b :: rest)

/-- Zero-pad the decimal representation of `n` to `w` characters
(`strftime` field padding). -/
def padZ (w : Nat) (n : Nat) : String :=
  let d := toString n
  (List.asString (List.replicate (w - d.length) '0')) ++ d

example : splitStr "Error:" "abc Error: -4 tail" = ["abc ", " -4 tail"] := by decide
example : splitStr "Error:" "xError:-4Error:z" = ["x", "-4", "z"] := by decide
example : containsSubC "Error:".data "no marker".data = false := by decide
example : trimStr "  -4 " = "-4" := by decide
example : replaceStr "ABCI_DE" "CI_" "" = "ABDE" := by decide
example : parseInt "-42" = some (-42) := by decide
example : parseInt "4a2" = none := by decide
example : padZ 2 7 = "07" := by decide

/-! ## Configuration (`src/backend/config.py`) -/

/-- `Config.GRANULARITY_LIMITS.get(granularity, 180)`: maximum days per
remote request for each granularity code, default 180. -/
def GRANULARITY_LIMITS_get (g : String) : Int :=
  if g = "U" then 7
  else if g = "X" then 31
  else if g = "H" then 180
  else if g = "J" then 365
  else if g = "D" then 365
  else 180

/-- `Config.DEFAULT_VALUE`: sentinel written for missing parameter values. -/
def DEFAULT_VALUE : String := "-99999"

/-! ## Timestamps (`datetime` at second resolution) -/

/-- A parsed calendar timestamp, as produced by
`datetime.strptime(_, "%Y%m%d%H%M")`. -/
structure Timestamp where
  year : Nat
  month : Nat
  day : Nat
  hour : Nat
  minute : Nat
deriving DecidableEq, Repr

/-- Numeric sort key of a timestamp; for in-range components this is the
`YYYYMMDDHHMM` number, so comparing keys is the `datetime` order. -/
def Timestamp.key (t : Timestamp) : Nat :=
  (((t.year * 100 + t.month) * 100 + t.day) * 100 + t.hour) * 100 + t.minute

/-- Gregorian leap-year test. -/
def isLeap (y : Nat) : Bool :=
  (y % 4 = 0 && y % 100 ≠ 0) || y % 400 = 0

/-- Days in a month of the proleptic Gregorian calendar. -/
def daysInMonth (y m : Nat) : Nat :=
  if m = 2 then (if isLeap y then 29 else 28)
  else if m = 4 ∨ m = 6 ∨ m = 9 ∨ m = 11 then 30
  else 31

/-- `datetime.strptime(s, "%Y%m%d%H%M")`: twelve digits, validated fields. -/
def parse_timestamp (s : String) : Option Timestamp :=
  match s.data with
  | [y1, y2, y3, y4, m1, m2, d1, d2, h1, h2, n1, n2] =>
    if ([y1, y2, y3, y4, m1, m2, d1, d2, h1, h2, n1, n2].all Char.isDigit) then
      let dv := fun (c : Char) => c.toNat - 48
      let y := ((dv y1 * 10 + dv y2) * 10 + dv y3) * 10 + dv y4
      let mo := dv m1 * 10 + dv m2
      let d := dv d1 * 10 + dv d2
      let h := dv h1 * 10 + dv h2
      let mi := dv n1 * 10 + dv n2
      if 1 ≤ y ∧ 1 ≤ mo ∧ mo ≤ 12 ∧ 1 ≤ d ∧ d ≤ daysInMonth y mo ∧ h ≤ 23 ∧ mi ≤ 59
      then some ⟨y, mo, d, h, mi⟩
      else none
    else none
  | _ => none

/-- `strftime("%Y-%m-%d")`. -/
def fmtDate (t : Timestamp) : String :=
  padZ 4 t.year ++ "-" ++ padZ 2 t.month ++ "-" ++ padZ 2 t.day

/-- `strftime("%H:%M")`. -/
def fmtTime (t : Timestamp) : String :=
  padZ 2 t.hour ++ ":" ++ padZ 2 t.minute

/-- Day number of a civil date in the proleptic Gregorian calendar
(days since 1970-01-01); the standard days-from-civil computation, used to
relate the concrete dates appearing in the claims to second/day counts. -/
def toEpochDay (y m d : Int) : Int :=
  let y' := if m ≤ 2 then y - 1 else y
  let era := y'.ediv 400
  let yoe := y' - era * 400
  let mp := (m + 9).emod 12
  let doy := (153 * mp + 2).ediv 5 + d - 1
  let doe := yoe * 365 + yoe.ediv 4 - yoe.ediv 100 + doy
  era * 146097 + doe - 719468

example : toEpochDay 1970 1 1 = 0 := by decide
example : toEpochDay 1970 3 1 = 59 := by decide
example : toEpochDay 2024 1 1 - toEpochDay 2023 1 1 = 365 := by decide
example : toEpochDay 2025 1 1 - toEpochDay 2024 1 1 = 366 := by decide
example : toEpochDay 2026 2 13 - toEpochDay 2018 3 15 = 2892 := by decide

/-! ## Data points -/

/-- One decoded data point: a timestamp plus a parameter-to-value map
(the Python dict); `none` in the range of the map is the explicit
Python `None` marker. -/
structure DataPoint where
  ts : Timestamp
  vals : List (String × Option String)
deriving DecidableEq, Repr

/-- Python `point.get(param)`: `none` when the key is absent, otherwise
`some` of the stored (possibly `None`) value. -/
def DataPoint.get (pt : DataPoint) (p : String) : Option (Option String) :=
  (pt.vals.find? (fun kv => kv.1 = p)).map Prod.snd

/-! ## Range chunker (`split_date_range`, `src/backend/utils.py:97-112`) -/

/-- One-loop-iteration-per-fuel-unit embedding of the `while` loop of
`split_date_range`; returns `none` when the loop is still running after
`fuel` iterations, so that termination statements are expressible. -/
def splitGo (max_days e : Int) : Nat → Int → Option (List (Int × Int))
  | 0, s => if s < e then none else some []
  | fuel + 1, s =>
    if s < e then
      let ce := min (s + max_days * 86400) e
      (splitGo max_days e fuel ce).map (fun l => (s, ce) :: l)
    else some []

/-- `split_date_range(start, end, max_days)`: datetimes as epoch seconds,
`timedelta(days=max_days)` as `max_days * 86400` seconds.  The fuel
`(e - s).toNat` is sufficient whenever `1 ≤ max_days` (proved below). -/
def split_date_range (s e max_days : Int) : List (Int × Int) :=
  (splitGo max_days e (e - s).toNat s).getD []

/-- `tiling e s L`: the pairs in `L` exactly tile the interval from `s` to
`e` in order — the first pair starts at `s`, each pair is non-degenerate,
ends no later than `e`, starts where the previous one ended, and the
list ends exactly when `e` is reached. -/
def tiling (e : Int) : Int → List (Int × Int) → Prop
  | s, [] => e ≤ s
  | s, c :: rest => c.1 = s ∧ s < c.2 ∧ c.2 ≤ e ∧ tiling e c.2 rest

example : split_date_range 0 (20 * 86400) 7 =
    [(0, 7 * 86400), (7 * 86400, 14 * 86400), (14 * 86400, 20 * 86400)] := by decide
example : split_date_range 5 5 7 = [] := by decide
example : split_date_range 9 5 7 = [] := by decide

/-- Main induction for the chunker: with a positive day limit and fuel at
least the number of remaining seconds, the loop terminates and returns a
list that tiles the remaining interval, whose every chunk spans at most
`max_days` days, and whose length is the ceiling of seconds over chunk
seconds. -/
theorem splitGo_correct (m e : Int) (hm : 1 ≤ m) :
    ∀ (fuel : Nat) (s : Int), (e - s).toNat ≤ fuel →
      ∃ L, splitGo m e fuel s = some L ∧ tiling e s L ∧
        (∀ c ∈ L, c.2 - c.1 ≤ m * 86400) ∧
        L.length = ((e - s).toNat + (m * 86400).toNat - 1) / (m * 86400).toNat := by
  have hMpos : (86400 : Int) ≤ m * 86400 := by nlinarith
  have hM : 0 < (m * 86400).toNat := by omega
  intro fuel
  induction fuel with
  | zero =>
    intro s hs
    have hes : e ≤ s := by omega
    have h0 : (e - s).toNat = 0 := by omega
    refine ⟨[], ?_, hes, by simp, ?_⟩
    · simp only [splitGo]
      rw [if_neg (by omega)]
    · rw [h0, Nat.zero_add, Nat.div_eq_of_lt (by omega)]
      rfl
  | succ fuel ih =>
    intro s hs
    by_cases hse : s < e
    · set ce := min (s + m * 86400) e with hce
      have hsce : s < ce := by
        simp only [hce, lt_min_iff]
        constructor <;> omega
      have hcee : ce ≤ e := min_le_right _ _
      have hcele : ce ≤ s + m * 86400 := min_le_left _ _
      have hfuel : (e - ce).toNat ≤ fuel := by omega
      obtain ⟨L', hL', htil, hbnd, hlen⟩ := ih ce hfuel
      refine ⟨(s, ce) :: L', ?_, ⟨rfl, hsce, hcee, htil⟩, ?_, ?_⟩
      · simp only [splitGo]
        rw [if_pos hse, ← hce, hL']
        rfl
      · intro c hc
        rcases List.mem_cons.mp hc with h | h
        · subst h
          simp only []
          omega
        · exact hbnd c h
      · -- length: ceil division recurrence
        rw [List.length_cons, hlen]
        rcases le_or_lt e (s + m * 86400) with hbig | hsmall
        · -- ce = e: this is the final chunk
          have hcee' : ce = e := by simp only [hce]; omega
          have hD1 : 1 ≤ (e - s).toNat := by omega
          have hDM : (e - s).toNat ≤ (m * 86400).toNat := by omega
          have h1 : ((e - ce).toNat + (m * 86400).toNat - 1) / (m * 86400).toNat = 0 := by
            rw [hcee']
            exact Nat.div_eq_of_lt (by omega)
          have h2 : (e - s).toNat + (m * 86400).toNat - 1 =
              ((e - s).toNat - 1) + (m * 86400).toNat := by omega
          have h3 : ((e - s).toNat - 1) / (m * 86400).toNat = 0 :=
            Nat.div_eq_of_lt (by omega)
          rw [h1, h2, Nat.add_div_right _ hM, h3]
        · -- ce = s + m * 86400: a full-width chunk remains before the end
          have hcee' : ce = s + m * 86400 := by simp only [hce]; omega
          have hDM : (m * 86400).toNat < (e - s).toNat := by omega
          have h1 : (e - ce).toNat + (m * 86400).toNat - 1 = (e - s).toNat - 1 := by
            rw [hcee']
            omega
          have h2 : (e - s).toNat + (m * 86400).toNat - 1 =
              ((e - s).toNat - 1) + (m * 86400).toNat := by omega
          rw [h1, h2, Nat.add_div_right _ hM]
    · have hes : e ≤ s := by omega
      have h0 : (e - s).toNat = 0 := by omega
      refine ⟨[], ?_, hes, by simp, ?_⟩
      · simp only [splitGo]
        rw [if_neg hse]
      · rw [h0, Nat.zero_add, Nat.div_eq_of_lt (by omega)]
        rfl

/-- C1: for `start < end` and a positive integer `max_days`,
`split_date_range` returns an ordered list of chunks that exactly tiles
the interval (first chunk starts at `start`, each chunk ends where the
next begins, the last ends at `end`, captured by `tiling`), every chunk
spans at most `max_days` days, and the chunk count is the ceiling of the
total duration over the chunk width; for `start ≥ end` it returns the
empty list. -/
theorem split_date_range_spec (s e m : Int) (hm : 1 ≤ m) :
    (e ≤ s → split_date_range s e m = []) ∧
    (s < e →
      tiling e s (split_date_range s e m) ∧
      (∀ c ∈ split_date_range s e m, c.2 - c.1 ≤ m * 86400) ∧
      (split_date_range s e m).length =
        ((e - s).toNat + (m * 86400).toNat - 1) / (m * 86400).toNat) := by
  constructor
  · intro hes
    obtain ⟨L, hL, htil, _, hlen⟩ := splitGo_correct m e hm (e - s).toNat s le_rfl
    have h0 : (e - s).toNat = 0 := by omega
    rw [split_date_range, hL]
    cases L with
    | nil => rfl
    | cons c rest =>
      exfalso
      obtain ⟨_, h1, h2, _⟩ := htil
      omega
  · intro hse
    obtain ⟨L, hL, htil, hbnd, hlen⟩ := splitGo_correct m e hm (e - s).toNat s le_rfl
    rw [split_date_range, hL]
    exact ⟨htil, hbnd, hlen⟩

/-- C1 witness: the specification instantiated on the concrete range
`[0, 20 days)` with a 7-day limit (three chunks, `ceil(20/7) = 3`). -/
theorem split_date_range_spec_witness :
    tiling (20 * 86400) 0 (split_date_range 0 (20 * 86400) 7) ∧
    (∀ c ∈ split_date_range 0 (20 * 86400) 7, c.2 - c.1 ≤ 7 * 86400) ∧
    (split_date_range 0 (20 * 86400) 7).length =
      (((20 * 86400 : Int) - 0).toNat + ((7 : Int) * 86400).toNat - 1) /
        ((7 : Int) * 86400).toNat ∧
    split_date_range 9 5 7 = [] := by
  refine ⟨?_, ?_, ?_, ?_⟩
  · exact ((split_date_range_spec 0 (20 * 86400) 7 (by decide)).2 (by decide)).1
  · exact ((split_date_range_spec 0 (20 * 86400) 7 (by decide)).2 (by decide)).2.1
  · exact ((split_date_range_spec 0 (20 * 86400) 7 (by decide)).2 (by decide)).2.2
  · exact (split_date_range_spec 9 5 7 (by decide)).1 (by decide)

/-- Helper for C10: with a non-positive day limit and `s < e`, the loop
guard never becomes false, so no amount of fuel completes the loop. -/
theorem splitGo_none_of_nonpos (m e : Int) (hm : m ≤ 0) :
    ∀ (fuel : Nat) (s : Int), s < e → splitGo m e fuel s = none := by
  intro fuel
  induction fuel with
  | zero =>
    intro s hse
    simp only [splitGo]
    rw [if_pos hse]
  | succ fuel ih =>
    intro s hse
    have hstep : min (s + m * 86400) e < e := by
      have : s + m * 86400 ≤ s := by nlinarith
      omega
    simp only [splitGo]
    rw [if_pos hse, ih _ hstep]
    rfl

/-- C10: the chunking loop terminates for every `max_days ≥ 1` (any fuel
covering the remaining seconds completes it, and each iteration strictly
advances the cursor by `min(max_days days, remaining span)`); for
`max_days ≤ 0` with `start < end` no amount of fuel completes the loop;
and every entry of the granularity-limit table is positive — 7, 31, 180,
365, 365 for U, X, H, J, D, with 180 for any other granularity — so each
call site passes a positive limit. -/
theorem split_date_range_termination :
    (∀ (s e m : Int) (fuel : Nat), 1 ≤ m → (e - s).toNat ≤ fuel →
      (splitGo m e fuel s).isSome) ∧
    (∀ (s e m : Int) (fuel : Nat), m ≤ 0 → s < e → splitGo m e fuel s = none) ∧
    (∀ (s e m : Int), 1 ≤ m → s < e → s < min (s + m * 86400) e) ∧
    GRANULARITY_LIMITS_get "U" = 7 ∧ GRANULARITY_LIMITS_get "X" = 31 ∧
    GRANULARITY_LIMITS_get "H" = 180 ∧ GRANULARITY_LIMITS_get "J" = 365 ∧
    GRANULARITY_LIMITS_get "D" = 365 ∧
    (∀ g, g ≠ "U" → g ≠ "X" → g ≠ "H" → g ≠ "J" → g ≠ "D" →
      GRANULARITY_LIMITS_get g = 180) ∧
    (∀ g, 1 ≤ GRANULARITY_LIMITS_get g) := by
  refine ⟨?_, ?_, ?_, by decide, by decide, by decide, by decide, by decide, ?_, ?_⟩
  · intro s e m fuel hm hfuel
    obtain ⟨L, hL, -⟩ := splitGo_correct m e hm fuel s hfuel
    rw [hL]
    rfl
  · intro s e m fuel hm hse
    exact splitGo_none_of_nonpos m e hm fuel s hse
  · intro s e m hm hse
    have : (86400 : Int) ≤ m * 86400 := by nlinarith
    simp only [lt_min_iff]
    constructor <;> omega
  · intro g h1 h2 h3 h4 h5
    simp only [GRANULARITY_LIMITS_get, if_neg h1, if_neg h2, if_neg h3, if_neg h4, if_neg h5]
  · intro g
    simp only [GRANULARITY_LIMITS_get]
    split <;> try norm_num
    split <;> try norm_num
    split <;> try norm_num
    split <;> try norm_num
    split <;> norm_num

/-- C10 witness: termination instantiated on a concrete 10-day range with
a 7-day limit and exactly-sufficient fuel, non-termination instantiated
with limit 0, and positivity of the table at a concrete granularity. -/
theorem split_date_range_termination_witness :
    (splitGo 7 (10 * 86400) (((10 * 86400 : Int) - 0).toNat) 0).isSome ∧
    splitGo 0 (10 * 86400) 5 0 = none ∧
    1 ≤ GRANULARITY_LIMITS_get "Q" := by
  refine ⟨?_, ?_, ?_⟩
  · exact split_date_range_termination.1 0 (10 * 86400) 7 _ (by decide) le_rfl
  · exact split_date_range_termination.2.1 0 (10 * 86400) 0 5 (by decide) (by decide)
  · exact split_date_range_termination.2.2.2.2.2.2.2.2.2 "Q"

/-! ## Volume estimator (`estimate_data_volume`, `src/backend/utils.py:13-46`) -/

/-- Python `int(x)` on a real value: truncation toward zero (the
denominator of a normalized rational is positive). -/
def ratTrunc (q : ℚ) : Int :=
  Int.tdiv q.num q.den

/-- Floor of a rational, computed by floor division of the numerator. -/
def ratFloor (q : ℚ) : Int :=
  Int.ediv q.num q.den

/-- Python `round(x, 2)` on the exact (rational) value of `x`; ties are
rounded up, which agrees with Python at every non-tie input. -/
def round2 (q : ℚ) : ℚ :=
  ((ratFloor (q * 100 + 1 / 2) : ℤ) : ℚ) / 100

/-- The `{rows, size_kb, size_mb}` result of the estimator. -/
structure VolumeEstimate where
  rows : Int
  size_kb : Int
  size_mb : ℚ
deriving DecidableEq, Repr

/-- `estimate_data_volume(start_date, end_date, granularity, num_stations,
num_params)`: datetimes as epoch seconds, so `delta.total_seconds()` is
`end_s - start_s`, `delta.days` is its floor division by 86400 and
`delta.seconds` the remainder. -/
def estimate_data_volume (start_s end_s : Int) (granularity : String)
    (num_stations num_params : Int) : VolumeEstimate :=
  let delta := end_s - start_s
  let points : ℚ :=
    if granularity = "U" then (delta : ℚ) / 60
    else if granularity = "X" then (delta : ℚ) / (6 * 60)
    else if granularity = "H" then
      ((delta.ediv 86400 : ℤ) : ℚ) * 24 + ((delta.emod 86400 : ℤ) : ℚ) / 3600
    else if granularity = "J" ∨ granularity = "D" then ((delta.ediv 86400 : ℤ) : ℚ)
    else ((delta.ediv 86400 : ℤ) : ℚ) * 24
  let total_rows : Int := ratTrunc (points * (num_stations : ℚ))
  let bytes_per_row : Int := 20 + num_params * 10
  let size_bytes : ℚ := ((total_rows * bytes_per_row : ℤ) : ℚ)
  let size_kb : ℚ := size_bytes / 1024
  let size_mb : ℚ := size_kb / 1024
  { rows := total_rows, size_kb := ratTrunc size_kb, size_mb := round2 size_mb }

/-- The estimator exactly as claim C5 words it (for comparison with the
source embedding above): points-per-station is always the elapsed
duration divided by the nominal sampling interval, and `size_mb` is
derived from the already-truncated `size_kb`. -/
def estimate_volume_per_claim (start_s end_s : Int) (granularity : String)
    (num_stations num_params : Int) : VolumeEstimate :=
  let delta := end_s - start_s
  let interval : ℚ :=
    if granularity = "U" then 60
    else if granularity = "X" then 360
    else if granularity = "H" then 3600
    else if granularity = "J" ∨ granularity = "D" then 86400
    else 3600
  let points : ℚ := (delta : ℚ) / interval
  let total_rows : Int := ratTrunc (points * (num_stations : ℚ))
  let bytes_per_row : Int := 20 + num_params * 10
  let size_bytes : ℚ := ((total_rows * bytes_per_row : ℤ) : ℚ)
  let size_kb_int : Int := ratTrunc (size_bytes / 1024)
  { rows := total_rows, size_kb := size_kb_int,
    size_mb := round2 ((size_kb_int : ℚ) / 1024) }

example : (estimate_data_volume 0 129600 "J" 2 1).rows = 2 := by
  simp only [estimate_data_volume, ratTrunc, String.reduceEq, reduceIte, true_or, false_or,
    or_true, or_false, if_true, if_false]
  norm_num

/-- C5 counterexample: the claim's formulas disagree with the code at
concrete inputs.  Over 1.5 days at granularity J with 2 stations the code
computes `int(delta.days) * 2 = 2` rows while the claimed
duration/86400-seconds formula gives 3; over 1.5 days at an unrecognized
granularity the code gives `delta.days * 24 = 24` rows while the claimed
duration/3600 gives 36; and over 175 days at J with 1 station and 1
parameter the code computes `size_mb` from the un-truncated kb value
(0.01) while the claimed truncated-kb formula gives 0.0. -/
theorem estimate_data_volume_counterexample :
    (estimate_data_volume 0 129600 "J" 2 1).rows = 2 ∧
    (estimate_volume_per_claim 0 129600 "J" 2 1).rows = 3 ∧
    (estimate_data_volume 0 129600 "Z" 1 1).rows = 24 ∧
    (estimate_volume_per_claim 0 129600 "Z" 1 1).rows = 36 ∧
    (estimate_data_volume 0 (175 * 86400) "J" 1 1).size_mb = 1 / 100 ∧
    (estimate_volume_per_claim 0 (175 * 86400) "J" 1 1).size_mb = 0 := by
  refine ⟨?_, ?_, ?_, ?_, ?_, ?_⟩ <;>
    · simp only [estimate_data_volume, estimate_volume_per_claim, ratTrunc, ratFloor, round2,
        String.reduceEq, reduceIte, true_or, false_or, or_true, or_false, if_true, if_false]
      norm_num [show Int.tdiv 2625 512 = 5 from by decide]

/-- C5 amended: `estimate_data_volume` computes points-per-station as the
elapsed duration divided by the sampling interval for U (60 s), X (360 s)
and H (3600 s); for J/D it uses the whole-day count `delta.days`, and for
an unrecognized granularity `delta.days * 24` (whole days times 24, not
the exact hourly quotient); total rows are `int(points * stations)`, the
reported `size_kb` is `int(rows * (20 + 10 * params) / 1024)`, and
`size_mb` is `round(bytes / 1024 / 1024, 2)` computed from the
un-truncated kb value; the concrete estimate over [2023-01-01,
2024-01-01) at H with 2 stations (and 3 parameters) yields
`rows = 365 * 24 * 2 = 17520`. -/
theorem estimate_data_volume_amended (ss es : Int) (g : String) (ns np : Int) :
    (g = "U" → (estimate_data_volume ss es g ns np).rows =
      ratTrunc (((es - ss : Int) : ℚ) / 60 * (ns : ℚ))) ∧
    (g = "X" → (estimate_data_volume ss es g ns np).rows =
      ratTrunc (((es - ss : Int) : ℚ) / 360 * (ns : ℚ))) ∧
    (g = "H" → (estimate_data_volume ss es g ns np).rows =
      ratTrunc (((es - ss : Int) : ℚ) / 3600 * (ns : ℚ))) ∧
    (g = "J" ∨ g = "D" → (estimate_data_volume ss es g ns np).rows =
      ratTrunc ((((es - ss).ediv 86400 : ℤ) : ℚ) * (ns : ℚ))) ∧
    (g ≠ "U" → g ≠ "X" → g ≠ "H" → g ≠ "J" → g ≠ "D" →
      (estimate_data_volume ss es g ns np).rows =
        ratTrunc ((((es - ss).ediv 86400 : ℤ) : ℚ) * 24 * (ns : ℚ))) ∧
    ((estimate_data_volume ss es g ns np).size_kb =
      ratTrunc ((((estimate_data_volume ss es g ns np).rows * (20 + np * 10) : ℤ) : ℚ) / 1024)) ∧
    ((estimate_data_volume ss es g ns np).size_mb =
      round2 ((((estimate_data_volume ss es g ns np).rows * (20 + np * 10) : ℤ) : ℚ)
        / 1024 / 1024)) ∧
    (estimate_data_volume (86400 * toEpochDay 2023 1 1) (86400 * toEpochDay 2024 1 1)
      "H" 2 3).rows = 17520 := by
  have hde : 86400 * ((es - ss).ediv 86400) + (es - ss).emod 86400 = es - ss :=
    Int.ediv_add_emod _ _
  have key : ((es - ss : Int) : ℚ) =
      86400 * (((es - ss).ediv 86400 : ℤ) : ℚ) + (((es - ss).emod 86400 : ℤ) : ℚ) := by
    exact_mod_cast hde.symm
  refine ⟨?_, ?_, ?_, ?_, ?_, ?_, ?_, ?_⟩
  · intro hg
    subst hg
    simp only [estimate_data_volume, String.reduceEq, reduceIte, true_or, false_or,
      or_true, or_false, if_true, if_false]
  · intro hg
    subst hg
    simp only [estimate_data_volume, String.reduceEq, reduceIte, true_or, false_or,
      or_true, or_false, if_true, if_false]
    norm_num
  · intro hg
    subst hg
    simp only [estimate_data_volume, String.reduceEq, reduceIte, true_or, false_or,
      or_true, or_false, if_true, if_false]
    congr 1
    rw [key]
    ring
  · intro hg
    rcases hg with hg | hg <;>
      · subst hg
        simp only [estimate_data_volume, String.reduceEq, reduceIte, true_or, false_or,
          or_true, or_false, if_true, if_false]
  · intro h1 h2 h3 h4 h5
    simp only [estimate_data_volume, if_neg h1, if_neg h2, if_neg h3,
      if_neg (show ¬(g = "J" ∨ g = "D") from by tauto)]
  · rfl
  · rfl
  · have h1 : toEpochDay 2023 1 1 = 19358 := by decide
    have h2 : toEpochDay 2024 1 1 = 19723 := by decide
    rw [h1, h2]
    simp only [estimate_data_volume, ratTrunc, String.reduceEq, reduceIte, true_or, false_or,
      or_true, or_false, if_true, if_false]
    norm_num

/-- C5 witness: the amended statement instantiated at the concrete
[2023-01-01, 2024-01-01) hourly request of the spec (granularity H,
2 stations, 3 parameters): 17520 rows. -/
theorem estimate_data_volume_amended_witness :
    (estimate_data_volume (86400 * toEpochDay 2023 1 1) (86400 * toEpochDay 2024 1 1)
      "H" 2 3).rows = 17520 ∧
    (estimate_data_volume 0 7200 "H" 1 1).rows =
      ratTrunc (((7200 - 0 : Int) : ℚ) / 3600 * ((1 : Int) : ℚ)) := by
  constructor
  · exact (estimate_data_volume_amended 0 0 "Q" 0 0).2.2.2.2.2.2.2
  · exact (estimate_data_volume_amended 0 7200 "H" 1 1).2.2.1 rfl

/-! ## Duration formatting (`format_duration`, `src/backend/utils.py:142-162`) -/

/-- `format_duration(days)`: under 30 days a day count with plural s for
`days > 1`; otherwise the year (`days // 365`) and month
(`days % 365 // 30`) components, each emitted only when positive, joined
by a space. -/
def format_duration (days : Int) : String :=
  if days < 30 then toString days ++ " jour" ++ (if 1 < days then "s" else "")
  else
    let years := Int.ediv days 365
    let remaining_days := Int.emod days 365
    let months := Int.ediv remaining_days 30
    let parts :=
      (if 0 < years then [toString years ++ " an" ++ (if 1 < years then "s" else "")]
       else []) ++
      (if 0 < months then [toString months ++ " mois"] else [])
    if parts = [] then toString days ++ " jours" else joinSpace parts

example : format_duration 2892 = "7 ans 11 mois" := by decide
example : format_duration 45 = "1 mois" := by decide
example : format_duration 365 = "1 an" := by decide
example : format_duration 1 = "1 jour" := by decide
example : format_duration 0 = "0 jour" := by decide

/-! ## Remote client (`src/backend/webservice.py`) -/

/-- A Python exception, tagged by the classes the code catches
separately: `WebServiceError`, `ValueError`, or anything else. -/
inductive PyErr where
  | webServiceError (msg : String)
  | valueError (msg : String)
  | otherError (msg : String)
deriving DecidableEq, Repr

/-- `MeteoVisionClient.ERROR_MESSAGES.get(code)`. -/
def ERROR_MESSAGES_get (code : Int) : Option String :=
  if code = -1 then some "Erreur de connexion/login"
  else if code = -2 then some "Argument inconnu"
  else if code = -4 then some "Station non trouvée"
  else if code = -5 then some "Pas de données disponibles"
  else if code = -15 then some "Aucune donnée disponible"
  else none

/-- Python `"Error:" in s`. -/
def contains_error (s : String) : Bool :=
  containsSubC "Error:".data s.data

/-- Python `s.split("Error:")`. -/
def split_on_error (s : String) : List String :=
  splitStr "Error:" s

/-- `_extract_error_code(error_string)`
(`src/backend/webservice.py:178-183`): `int(s.split("Error:")[1].strip())`
with every failure (missing part or unparsable integer) mapped to the
sentinel `-999` by the bare `except`. -/
def extract_error_code (s : String) : Int :=
  match (split_on_error s).get? 1 with
  | some part => (parseInt (trimStr part)).getD (-999)
  | none => -999

/-- One `LINEDATA` line of `_parse_xml_data`
(`src/backend/webservice.py:196-212`): split on commas, strip every
field, parse field 0 as a `%Y%m%d%H%M` timestamp (`none` embeds the
`ValueError` path), then bind each requested parameter to its positional
field — the empty string or a missing field becomes the `None` marker. -/
def parse_line (line : String) (params : List String) : Option DataPoint :=
  let values := (splitStr "," line).map trimStr
  match parse_timestamp (values.headD "") with
  | none => none
  | some ts =>
    some ⟨ts, params.enum.map (fun ip =>
      (ip.2,
        let v := values.getD (ip.1 + 1) ""
        if v = "" then none else some v))⟩

/-- `_parse_xml_data` over the `LINEDATA` text contents of the reply
(the XML envelope walk `ET.fromstring` / `findall` is abstracted to the
extracted list of line strings); any per-line failure is converted by the
enclosing `except` to a `WebServiceError`. -/
def parse_xml_data (lines : List String) (params : List String) :
    Except PyErr (List DataPoint) :=
  match lines.mapM (fun l => parse_line l params) with
  | some pts => Except.ok pts
  | none => Except.error (PyErr.webServiceError "Erreur parsing données: format invalide")

/-- `get_block_sorted_value` reply decoding
(`src/backend/webservice.py:155-176`), for a connected client: the
remote reply body is `xml_data`; `xmlLines` abstracts the XML envelope
walk.  An embedded `Error:` marker is decoded to a code: `-5` yields the
empty list, any other code raises `WebServiceError` with the mapped
message and the code. -/
def get_block_sorted_value (xmlLines : String → List String)
    (xml_data : String) (params : List String) : Except PyErr (List DataPoint) :=
  if contains_error xml_data then
    let code := extract_error_code xml_data
    if code = -5 then Except.ok []
    else
      let msg := (ERROR_MESSAGES_get code).getD "Erreur inconnue"
      Except.error (PyErr.webServiceError (msg ++ " (code: " ++ toString code ++ ")"))
  else
    parse_xml_data (xmlLines xml_data) params

/-- Outcome of the remote `GetVersion` call: a transport/library fault,
or a reply string. -/
inductive VersionReply where
  | fault
  | reply (s : String)
deriving DecidableEq, Repr

/-- `get_version` (`src/backend/webservice.py:71-86`): raises
`WebServiceError` when not connected; when connected, the `try` body
returns the reply string unless it embeds `Error:` (which raises inside
the `try`), and the blanket `except` converts every failure to the
string `"Unknown"`. -/
def get_version (connected : Bool) (r : VersionReply) : Except PyErr String :=
  if connected = false then
    Except.error (PyErr.webServiceError "Non connecté au WebService")
  else
    match r with
    | VersionReply.fault => Except.ok "Unknown"
    | VersionReply.reply s =>
      if contains_error s then Except.ok "Unknown" else Except.ok s

/-! ## Availability (`src/backend/app.py:179-215` and
`src/backend/providers/pulsonic_provider.py:64-96`) -/

/-- Python `station.replace("CI_", "")` as used for display labels. -/
def station_label (station : String) : String :=
  replaceStr station "CI_" ""

/-- One per-station availability record. -/
inductive AvailRecord where
  | success (first_date : Int) (last_date : Int) (days_count : Int)
      (duration : String) (label : String)
  | failure (error : String) (label : String)
deriving DecidableEq, Repr

/-- The per-station body of the route `get_stations_availability`
(`src/backend/app.py:182-215`), with the remote
`get_first_recorded_date` abstracted as the oracle `q`: a successful
query yields a success record with `days_count = (now - first).days`;
`WebServiceError` is caught to a failure record carrying its message;
any other exception is caught to a failure record with the generic
message. -/
def avail_record_app (q : String → Except PyErr Int) (now : Int)
    (st : String) : AvailRecord :=
  match q st with
  | Except.ok fd =>
    AvailRecord.success fd now ((now - fd).ediv 86400)
      (format_duration ((now - fd).ediv 86400)) (station_label st)
  | Except.error (PyErr.webServiceError m) => AvailRecord.failure m (station_label st)
  | Except.error _ => AvailRecord.failure "Erreur interne" (station_label st)

/-- The station loop of the route `get_stations_availability`: every
exception is handled per station, so the loop is a total map. -/
def get_stations_availability (q : String → Except PyErr Int) (now : Int)
    (stations : List String) : List (String × AvailRecord) :=
  stations.map (fun st => (st, avail_record_app q now st))

/-- The label lookup of `PulsonicProvider.get_availability`: the catalog
label of the station when present, else the raw id. -/
def pulsonic_label (catalog : List (String × String)) (st : String) : String :=
  ((catalog.find? (fun kv => kv.1 = st)).map Prod.snd).getD st

/-- The per-station body of `PulsonicProvider.get_availability`
(`src/backend/providers/pulsonic_provider.py:70-94`): only
`WebServiceError` is caught; any other exception propagates. -/
def avail_step_pulsonic (q : String → Except PyErr Int) (now : Int)
    (catalog : List (String × String)) (st : String) : Except PyErr AvailRecord :=
  match q st with
  | Except.ok fd =>
    Except.ok (AvailRecord.success fd now ((now - fd).ediv 86400)
      (format_duration ((now - fd).ediv 86400)) (pulsonic_label catalog st))
  | Except.error (PyErr.webServiceError m) =>
    Except.ok (AvailRecord.failure m (station_label st))
  | Except.error e => Except.error e

/-- The station loop of `PulsonicProvider.get_availability`: an
uncaught exception aborts the whole loop and discards earlier records. -/
def pulsonic_get_availability (q : String → Except PyErr Int) (now : Int)
    (catalog : List (String × String)) :
    List String → Except PyErr (List (String × AvailRecord))
  | [] => Except.ok []
  | st :: rest =>
    match avail_step_pulsonic q now catalog st with
    | Except.ok rec => (pulsonic_get_availability q now catalog rest).map
        (fun l => (st, rec) :: l)
    | Except.error e => Except.error e

/-! ## CSV export (`generate_csv_from_data`, `src/backend/utils.py:49-94`) -/

/-- Sort order used for data points: ascending timestamp
(`sorted(data_points, key=lambda x: x["timestamp"])`). -/
def ptLE (a b : DataPoint) : Prop :=
  a.ts.key ≤ b.ts.key

instance : DecidableRel ptLE :=
  fun a b => Nat.decLe a.ts.key b.ts.key

instance : IsTotal DataPoint ptLE :=
  ⟨fun a b => Nat.le_total a.ts.key b.ts.key⟩

instance : IsTrans DataPoint ptLE :=
  ⟨fun _ _ _ hab hbc => Nat.le_trans hab hbc⟩

/-- Lexicographic order on strings as lists of code points — Python
string comparison; proved below to agree with the standard order on
`String`. -/
def strLE (a b : String) : Prop :=
  a.data ≤ b.data

instance : DecidableRel strLE :=
  fun a b => (inferInstance : Decidable (a.data ≤ b.data))

instance : IsTotal String strLE :=
  ⟨fun a b =>
    (le_total a b).imp
      (fun h => String.le_iff_toList_le.mp h)
      (fun h => String.le_iff_toList_le.mp h)⟩

instance : IsTrans String strLE :=
  ⟨fun _ _ _ hab hbc =>
    String.le_iff_toList_le.mp
      (le_trans (String.le_iff_toList_le.mpr hab) (String.le_iff_toList_le.mpr hbc))⟩

/-- `sorted(data_by_station.keys())`: ascending lexical order. -/
def sorted_station_keys (data : List (String × List DataPoint)) : List String :=
  List.insertionSort strLE (data.map Prod.fst)

/-- `sorted(data_points, key=lambda x: x["timestamp"])`. -/
def sorted_points (pts : List DataPoint) : List DataPoint :=
  List.insertionSort ptLE pts

/-- `data_by_station[station_id]` (dict lookup; keys are unique). -/
def lookup_station (data : List (String × List DataPoint)) (k : String) :
    List DataPoint :=
  ((data.find? (fun kv => kv.1 = k)).map Prod.snd).getD []

/-- One parameter cell: `value if value is not None else default_value`
applied to `point.get(param)`. -/
def cell (pt : DataPoint) (p : String) (dflt : String) : String :=
  ((pt.get p).join).getD dflt

/-- One CSV data row:
`[station_label, date, time] + [cell for each param]`. -/
def csv_row (label : String) (params : List String) (dflt : String)
    (pt : DataPoint) : List String :=
  label :: fmtDate pt.ts :: fmtTime pt.ts :: params.map (fun p => cell pt p dflt)

/-- `generate_csv_from_data(data_by_station, params, default_value)` as
the list of CSV records it writes: the header row, then for each station
in ascending key order its points in ascending timestamp order, with the
label `station_id.replace("CI_", "")`. -/
def generate_csv_from_data (data : List (String × List DataPoint))
    (params : List String) (dflt : String) : List (List String) :=
  ("Station" :: "Date" :: "Heure" :: params) ::
    (sorted_station_keys data).flatMap (fun k =>
      (sorted_points (lookup_station data k)).map
        (csv_row (station_label k) params dflt))

/-! ## Download route (`download_data`, `src/backend/app.py:300-431`) -/

/-- The HTTP outcome of the download route (the CSV filename and byte
stream packaging are abstracted to the list of CSV records). -/
inductive DlResponse where
  | badRequest (msg : String)
  | notFound (msg : String)
  | okCsv (csv : List (List String))
  | serverError (msg : String)
deriving DecidableEq, Repr

/-- The per-station chunk loop of the download route
(`src/backend/app.py:361-378`): each block is fetched through the oracle
`fetch`; a `WebServiceError` is logged and skipped (`continue`); any
other exception propagates and aborts.  Also returns the number of
fetch attempts made. -/
def fetch_blocks (fetch : String → Int → Int → Except PyErr (List DataPoint))
    (st : String) : List (Int × Int) → Except PyErr (List DataPoint) × Nat
  | [] => (Except.ok [], 0)
  | b :: rest =>
    match fetch st b.1 b.2 with
    | Except.ok pts =>
      let r := fetch_blocks fetch st rest
      (r.1.map (fun l => pts ++ l), r.2 + 1)
    | Except.error (PyErr.webServiceError _) =>
      let r := fetch_blocks fetch st rest
      (r.1, r.2 + 1)
    | Except.error e => (Except.error e, 1)

/-- The station loop of the download route (`src/backend/app.py:354-378`). -/
def fetch_stations (fetch : String → Int → Int → Except PyErr (List DataPoint))
    (blocks : List (Int × Int)) :
    List String → Except PyErr (List (String × List DataPoint)) × Nat
  | [] => (Except.ok [], 0)
  | st :: rest =>
    let r := fetch_blocks fetch st blocks
    match r.1 with
    | Except.ok pts =>
      let r2 := fetch_stations fetch blocks rest
      (r2.1.map (fun l => (st, pts) :: l), r.2 + r2.2)
    | Except.error e => (Except.error e, r.2)

/-- `download_data` (`src/backend/app.py:317-431`) after JSON field
extraction and date parsing, with remote fetching abstracted by the
oracle `fetch`; returns the HTTP outcome paired with the number of
remote block fetches attempted.  Mirrors the code: the only list-shape
validation is `start_date >= end_date`; an empty result set is a 404;
propagated `ValueError` maps to 400 and any other uncaught exception to
500. -/
def download_data_route (stations params : List String) (sd ed : Int)
    (g : String) (fetch : String → Int → Int → Except PyErr (List DataPoint)) :
    DlResponse × Nat :=
  if ed ≤ sd then
    (DlResponse.badRequest "La date de début doit être avant la date de fin", 0)
  else
    let max_days := GRANULARITY_LIMITS_get g
    let blocks := split_date_range sd ed max_days
    let fsr := fetch_stations fetch blocks stations
    match fsr.1 with
    | Except.error (PyErr.valueError m) =>
      (DlResponse.badRequest ("Erreur de validation: " ++ m), fsr.2)
    | Except.error (PyErr.webServiceError m) =>
      (DlResponse.serverError ("Erreur WebService: " ++ m), fsr.2)
    | Except.error (PyErr.otherError _) =>
      (DlResponse.serverError "Erreur interne du serveur", fsr.2)
    | Except.ok data =>
      if (data.map (fun kv => kv.2.length)).sum = 0 then
        (DlResponse.notFound "Aucune donnée disponible pour la période sélectionnée", fsr.2)
      else
        (DlResponse.okCsv (generate_csv_from_data data params DEFAULT_VALUE), fsr.2)

/-- C3 counterexample: the claim says the displayed label strips the
family prefix `CI_`, so a station id in which `CI_` occurs only in the
middle would keep its name; the code instead removes every occurrence of
the substring — `"ABCI_DE"` is displayed as `"ABDE"`, not `"ABCI_DE"`. -/
theorem generate_csv_label_counterexample :
    generate_csv_from_data [("ABCI_DE", [⟨⟨2023, 1, 1, 0, 0⟩, []⟩])] [] "-99999" =
      [["Station", "Date", "Heure"], ["ABDE", "2023-01-01", "00:00"]] ∧
    ("ABDE" : String) ≠ "ABCI_DE" := by
  constructor
  · rfl
  · decide

/-- C3 amended: `generate_csv_from_data` emits the header
`[Station, Date, Heure, params...]` and one row per data point, station
groups in ascending lexical order of the station identifier (the
displayed label removes every occurrence of `"CI_"` from the identifier,
not only a leading prefix), rows within a station in ascending timestamp
order, and each parameter cell holds the point's value when present and
not `None`, else the sentinel; an absent key and an explicit `None` are
treated identically, and a genuine value — including `"0"` — is never
replaced by the sentinel. -/
theorem generate_csv_from_data_spec (data : List (String × List DataPoint))
    (params : List String) (dflt : String) :
    generate_csv_from_data data params dflt =
      ("Station" :: "Date" :: "Heure" :: params) ::
        (sorted_station_keys data).flatMap (fun k =>
          (sorted_points (lookup_station data k)).map
            (csv_row (station_label k) params dflt)) ∧
    List.Sorted strLE (sorted_station_keys data) ∧
    (∀ a b : String, strLE a b ↔ a ≤ b) ∧
    (sorted_station_keys data).Perm (data.map Prod.fst) ∧
    (∀ pts : List DataPoint,
      List.Sorted ptLE (sorted_points pts) ∧ (sorted_points pts).Perm pts) ∧
    (∀ k, station_label k = replaceStr k "CI_" "") ∧
    (∀ pt : DataPoint, ∀ p, pt.get p = none → cell pt p dflt = dflt) ∧
    (∀ pt : DataPoint, ∀ p, pt.get p = some none → cell pt p dflt = dflt) ∧
    (∀ pt : DataPoint, ∀ p v, pt.get p = some (some v) → cell pt p dflt = v) := by
  refine ⟨rfl, ?_, ?_, ?_, ?_, fun _ => rfl, ?_, ?_, ?_⟩
  · exact List.sorted_insertionSort strLE _
  · intro a b
    exact Iff.intro
      (fun h => String.le_iff_toList_le.mpr h)
      (fun h => String.le_iff_toList_le.mp h)
  · exact List.perm_insertionSort strLE _
  · intro pts
    exact ⟨List.sorted_insertionSort ptLE pts, List.perm_insertionSort ptLE pts⟩
  · intro pt p h
    simp [cell, h]
  · intro pt p h
    simp [cell, h]
  · intro pt p v h
    simp [cell, h]

/-- C3 witness: the characterization applied to a concrete two-station
table — keys are emitted in ascending order, and the three cell cases
(value present, explicit `None`, absent key) at a concrete point, with a
genuine `"0"` kept verbatim. -/
theorem generate_csv_from_data_spec_witness :
    List.Sorted strLE (sorted_station_keys [("CI_B", []), ("CI_A", [])]) ∧
    cell ⟨⟨2023, 1, 1, 0, 0⟩, [("p", some "0")]⟩ "p" "-99999" = "0" ∧
    cell ⟨⟨2023, 1, 1, 0, 0⟩, [("p", none)]⟩ "p" "-99999" = "-99999" ∧
    cell ⟨⟨2023, 1, 1, 0, 0⟩, []⟩ "p" "-99999" = "-99999" := by
  have h := generate_csv_from_data_spec [("CI_B", []), ("CI_A", [])] [] "-99999"
  refine ⟨h.2.1, ?_, ?_, ?_⟩
  · exact h.2.2.2.2.2.2.2.2 ⟨⟨2023, 1, 1, 0, 0⟩, [("p", some "0")]⟩ "p" "0" (by decide)
  · exact h.2.2.2.2.2.2.2.1 ⟨⟨2023, 1, 1, 0, 0⟩, [("p", none)]⟩ "p" (by decide)
  · exact h.2.2.2.2.2.2.1 ⟨⟨2023, 1, 1, 0, 0⟩, []⟩ "p" (by decide)

/-- C8 counterexample: the claim says every `days_count ≥ 30` is
formatted as `"<N> ans <M> mois"`; at 45 days the components are
`years = 0`, `months = 1`, so that form would read `"0 ans 1 mois"`, but
the code drops zero components and yields `"1 mois"` (likewise 365 days
yields `"1 an"`, not `"1 ans 0 mois"`). -/
theorem format_duration_counterexample :
    format_duration 45 = "1 mois" ∧ ("1 mois" : String) ≠ "0 ans 1 mois" ∧
    format_duration 365 = "1 an" ∧ ("1 an" : String) ≠ "1 ans 0 mois" := by
  refine ⟨by decide, by decide, by decide, by decide⟩

/-- C8 amended: for the concrete availability request on a station first
recorded 2018-03-15, evaluated at now = 2026-02-13, `days_count` is the
whole-day difference 2892 and the formatted duration is
`"7 ans 11 mois"`; in general a non-negative `days_count` below 30 is
formatted `"<N> jour(s)"` (plural s exactly when `N > 1`), and one of 30
or more is formatted from the year component `days // 365` and month
component `days % 365 // 30` with zero components omitted — both
components when both are positive, otherwise only the positive one. -/
theorem format_duration_amended :
    (get_stations_availability
        (fun _ => Except.ok (86400 * toEpochDay 2018 3 15))
        (86400 * toEpochDay 2026 2 13) ["CI_STATION"] =
      [("CI_STATION",
        AvailRecord.success (86400 * toEpochDay 2018 3 15)
          (86400 * toEpochDay 2026 2 13) 2892 "7 ans 11 mois" "STATION")]) ∧
    (∀ days : Int, 0 ≤ days → days < 30 →
      format_duration days =
        toString days ++ " jour" ++ (if 1 < days then "s" else "")) ∧
    (∀ days : Int, 30 ≤ days →
      format_duration days =
        (if 0 < Int.ediv days 365 ∧ 0 < Int.ediv (Int.emod days 365) 30 then
          toString (Int.ediv days 365) ++ " an" ++
            (if 1 < Int.ediv days 365 then "s" else "") ++ " " ++
            toString (Int.ediv (Int.emod days 365) 30) ++ " mois"
        else if 0 < Int.ediv days 365 then
          toString (Int.ediv days 365) ++ " an" ++
            (if 1 < Int.ediv days 365 then "s" else "")
        else
          toString (Int.ediv (Int.emod days 365) 30) ++ " mois")) := by
  refine ⟨?_, ?_, ?_⟩
  · decide
  · intro days _ h30
    rw [format_duration, if_pos h30]
  · intro days h30
    have e2 : 0 ≤ Int.emod days 365 := Int.emod_nonneg days (by norm_num)
    have e3 : Int.emod days 365 < 365 := Int.emod_lt_of_pos days (by norm_num)
    have e1 : 365 * Int.ediv days 365 + Int.emod days 365 = days :=
      Int.ediv_add_emod days 365
    have e5 : 0 ≤ Int.emod (Int.emod days 365) 30 :=
      Int.emod_nonneg (Int.emod days 365) (by norm_num)
    have e6 : Int.emod (Int.emod days 365) 30 < 30 :=
      Int.emod_lt_of_pos (Int.emod days 365) (by norm_num)
    have e4 : 30 * Int.ediv (Int.emod days 365) 30 + Int.emod (Int.emod days 365) 30 =
        Int.emod days 365 :=
      Int.ediv_add_emod (Int.emod days 365) 30
    rw [format_duration, if_neg (by omega)]
    by_cases hy : 0 < Int.ediv days 365
    · by_cases hm : 0 < Int.ediv (Int.emod days 365) 30
      · simp [hy, hm, joinSpace, String.append_assoc]
      · simp [hy, hm, joinSpace, String.append_assoc]
    · have hm : 0 < Int.ediv (Int.emod days 365) 30 := by omega
      simp [hy, hm, joinSpace, String.append_assoc]

/-- C8 witness: the amended statement applied at 5 days (singular-free
day form) and at 45 days (month-only form). -/
theorem format_duration_amended_witness :
    format_duration 5 = toString (5 : Int) ++ " jour" ++ (if (1 : Int) < 5 then "s" else "") ∧
    format_duration 45 =
      (if 0 < Int.ediv (45 : Int) 365 ∧ 0 < Int.ediv (Int.emod (45 : Int) 365) 30 then
        toString (Int.ediv (45 : Int) 365) ++ " an" ++
          (if 1 < Int.ediv (45 : Int) 365 then "s" else "") ++ " " ++
          toString (Int.ediv (Int.emod (45 : Int) 365) 30) ++ " mois"
      else if 0 < Int.ediv (45 : Int) 365 then
        toString (Int.ediv (45 : Int) 365) ++ " an" ++
          (if 1 < Int.ediv (45 : Int) 365 then "s" else "")
      else
        toString (Int.ediv (Int.emod (45 : Int) 365) 30) ++ " mois") := by
  constructor
  · exact format_duration_amended.2.1 5 (by decide) (by decide)
  · exact format_duration_amended.2.2 45 (by decide)

/-- C2: block-fetch reply decoding.  When the reply body contains the
`Error:` marker: a decoded code of `-5` yields the empty point list and
no exception; any other decoded code yields a `WebServiceError` carrying
the mapped human message and the code, with `-4` mapped to the
station-not-found message; and when no integer can be parsed from the
text after `Error:`, the extraction substitutes the sentinel `-999` and
the call yields the generic unknown-code `WebServiceError`, never a
parse/decoding failure. -/
theorem get_block_sorted_value_error_decoding (xmlLines : String → List String)
    (s : String) (params : List String) (h : contains_error s = true) :
    (extract_error_code s = -5 →
      get_block_sorted_value xmlLines s params = Except.ok []) ∧
    (∀ c : Int, extract_error_code s = c → c ≠ -5 →
      get_block_sorted_value xmlLines s params =
        Except.error (PyErr.webServiceError
          ((ERROR_MESSAGES_get c).getD "Erreur inconnue" ++ " (code: " ++ toString c ++ ")"))) ∧
    ERROR_MESSAGES_get (-4) = some "Station non trouvée" ∧
    (∀ part, (split_on_error s).get? 1 = some part → parseInt (trimStr part) = none →
      extract_error_code s = -999 ∧
      get_block_sorted_value xmlLines s params =
        Except.error (PyErr.webServiceError "Erreur inconnue (code: -999)")) := by
  refine ⟨?_, ?_, by decide, ?_⟩
  · intro hc
    simp only [get_block_sorted_value, h, reduceIte, hc]
  · intro c hc hne
    simp only [get_block_sorted_value, h, reduceIte, hc, if_neg hne]
  · intro part hpart hparse
    have hext : extract_error_code s = -999 := by
      rw [extract_error_code, hpart]
      show (parseInt (trimStr part)).getD (-999) = -999
      rw [hparse]
      rfl
    refine ⟨hext, ?_⟩
    simp only [get_block_sorted_value, h, reduceIte, hext]
    rw [if_neg (by decide : ¬(-999 : Int) = -5)]
    rfl

/-- C2 witness: the decoding rules applied to the spec's concrete
replies — `"Error:-5"` yields the empty list, `"Error:-4"` yields the
station-not-found `WebServiceError` with code `-4`, and `"Error:abc"`
(no extractable integer) yields the generic unknown-code error. -/
theorem get_block_sorted_value_error_decoding_witness :
    get_block_sorted_value (fun _ => []) "Error:-5" [] = Except.ok [] ∧
    get_block_sorted_value (fun _ => []) "Error:-4" ["Temp._inst"] =
      Except.error (PyErr.webServiceError "Station non trouvée (code: -4)") ∧
    extract_error_code "Error:abc" = -999 ∧
    get_block_sorted_value (fun _ => []) "Error:abc" [] =
      Except.error (PyErr.webServiceError "Erreur inconnue (code: -999)") := by
  refine ⟨?_, ?_, ?_, ?_⟩
  · exact (get_block_sorted_value_error_decoding (fun _ => []) "Error:-5" []
      (by decide)).1 (by decide)
  · have h := (get_block_sorted_value_error_decoding (fun _ => []) "Error:-4" ["Temp._inst"]
      (by decide)).2.1 (-4) (by decide) (by decide)
    rw [h]
    rfl
  · exact ((get_block_sorted_value_error_decoding (fun _ => []) "Error:abc" []
      (by decide)).2.2.2 "abc" (by decide) (by decide)).1
  · exact ((get_block_sorted_value_error_decoding (fun _ => []) "Error:abc" []
      (by decide)).2.2.2 "abc" (by decide) (by decide)).2

/-- C6 counterexample: the claim says `get_version` never raises for any
client state, connected or not; but the code raises `WebServiceError`
before its `try` block when the client is not connected. -/
theorem get_version_counterexample :
    get_version false (VersionReply.reply "1.0") =
      Except.error (PyErr.webServiceError "Non connecté au WebService") := by
  rfl

/-- C6 amended: when the client is connected, `get_version` never
raises — it returns the reply string on success and `"Unknown"` on any
retrieval failure (a transport fault, or a reply embedding the `Error:`
marker); when the client is not connected it raises `WebServiceError`. -/
theorem get_version_spec :
    (∀ r, ∃ v, get_version true r = Except.ok v) ∧
    (∀ s, contains_error s = false →
      get_version true (VersionReply.reply s) = Except.ok s) ∧
    (∀ s, contains_error s = true →
      get_version true (VersionReply.reply s) = Except.ok "Unknown") ∧
    get_version true VersionReply.fault = Except.ok "Unknown" ∧
    (∀ r, get_version false r =
      Except.error (PyErr.webServiceError "Non connecté au WebService")) := by
  refine ⟨?_, ?_, ?_, rfl, fun r => rfl⟩
  · intro r
    match r with
    | VersionReply.fault => exact ⟨"Unknown", rfl⟩
    | VersionReply.reply s =>
      by_cases h : contains_error s = true
      · exact ⟨"Unknown", by simp only [get_version, h, reduceIte]; rfl⟩
      · exact ⟨s, by simp only [get_version, eq_false_of_ne_true h, reduceIte]; rfl⟩
  · intro s h
    simp only [get_version, h, reduceIte]
    rfl
  · intro s h
    simp only [get_version, h, reduceIte]
    rfl

/-- C6 witness: the amended statement applied to concrete replies — a
clean version string is returned as-is, an `Error:`-marked reply and a
transport fault both yield `"Unknown"`, and a concrete call on a
disconnected client errors. -/
theorem get_version_spec_witness :
    get_version true (VersionReply.reply "2.1.0") = Except.ok "2.1.0" ∧
    get_version true (VersionReply.reply "Error:-1") = Except.ok "Unknown" ∧
    get_version false VersionReply.fault =
      Except.error (PyErr.webServiceError "Non connecté au WebService") := by
  refine ⟨?_, ?_, ?_⟩
  · exact get_version_spec.2.1 "2.1.0" (by decide)
  · exact get_version_spec.2.2.1 "Error:-1" (by decide)
  · exact get_version_spec.2.2.2.2 VersionReply.fault

/-- C7: for every reply line decoded by `parse_line` with requested
parameters `params`, a successful decode binds exactly one value per
parameter; every parameter whose positional field `i + 1` lies beyond
the number of comma-separated fields is bound to the absent marker
`none` (no index fault); no parameter is ever bound to the empty string
(an empty stripped field is normalized to `none`); and the first field
is the one parsed as a `%Y%m%d%H%M` timestamp. -/
theorem parse_line_spec (line : String) (params : List String) (ts : Timestamp)
    (vals : List (String × Option String))
    (h : parse_line line params = some ⟨ts, vals⟩) :
    vals.length = params.length ∧
    (∀ i (hi : i < vals.length),
      ((splitStr "," line).map trimStr).length ≤ i + 1 → (vals.get ⟨i, hi⟩).2 = none) ∧
    (∀ i (hi : i < vals.length), (vals.get ⟨i, hi⟩).2 ≠ some "") ∧
    parse_timestamp (((splitStr "," line).map trimStr).headD "") = some ts := by
  simp only [parse_line] at h
  rcases hts : parse_timestamp (((splitStr "," line).map trimStr).headD "") with _ | ts'
  · rw [hts] at h
    exact absurd h (by simp)
  · rw [hts] at h
    simp only [Option.some.injEq, DataPoint.mk.injEq] at h
    obtain ⟨hts', hmap⟩ := h
    subst hts'
    subst hmap
    refine ⟨by simp, ?_, ?_, rfl⟩
    · intro i hi hshort
      have hdef : ((splitStr "," line).map trimStr).getD (i + 1) "" = "" :=
        List.getD_eq_default _ _ hshort
      simp only [List.get_eq_getElem, List.getElem_map, List.getElem_enum]
      rw [if_pos hdef]
    · intro i hi
      simp only [List.get_eq_getElem, List.getElem_map, List.getElem_enum]
      by_cases hev : ((splitStr "," line).map trimStr).getD (i + 1) "" = ""
      · rw [if_pos hev]
        exact Option.noConfusion
      · rw [if_neg hev]
        intro hcon
        exact hev (Option.some.inj hcon)

/-- C7 witness: the decoding rules applied to the concrete line
`"202301011200,5,"` with three requested parameters — `a` gets `"5"`,
`b` (an empty stripped field) gets `none`, `c` (a missing field) gets
`none`, and the timestamp is parsed from the first field. -/
theorem parse_line_spec_witness :
    ([("a", some "5"), ("b", (none : Option String)), ("c", none)].length =
        ["a", "b", "c"].length) ∧
    (∀ i (hi : i < ([("a", some "5"), ("b", (none : Option String)), ("c", none)]).length),
      ((splitStr "," "202301011200,5,").map trimStr).length ≤ i + 1 →
        (([("a", some "5"), ("b", (none : Option String)), ("c", none)]).get ⟨i, hi⟩).2 = none) ∧
    (∀ i (hi : i < ([("a", some "5"), ("b", (none : Option String)), ("c", none)]).length),
      (([("a", some "5"), ("b", (none : Option String)), ("c", none)]).get ⟨i, hi⟩).2 ≠
        some "") ∧
    parse_timestamp (((splitStr "," "202301011200,5,").map trimStr).headD "") =
      some ⟨2023, 1, 1, 12, 0⟩ :=
  parse_line_spec "202301011200,5," ["a", "b", "c"] ⟨2023, 1, 1, 12, 0⟩
    [("a", some "5"), ("b", none), ("c", none)] (by decide)

/-- C4 counterexample: in `PulsonicProvider.get_availability` only
`WebServiceError` is caught per station; a station whose query raises
any other exception aborts the whole loop, so the sibling station
`CI_B` gets no record at all — the claim fails for this availability
implementation (its `whatever exception` part). -/
theorem get_availability_counterexample :
    pulsonic_get_availability
        (fun st => if st = "CI_A" then Except.error (PyErr.otherError "boom")
          else Except.ok 0)
        0 [] ["CI_A", "CI_B"] =
      Except.error (PyErr.otherError "boom") := by
  rfl

/-- C4 amended: the route `get_stations_availability` returns one record
per requested station in order, a failing station only degrades its own
record to a failure (any exception), and the records of the surrounding
stations are exactly what they would be without the failing one; in
`PulsonicProvider.get_availability` the same holds only while every
per-station failure is a `WebServiceError` — any other exception aborts
the loop and discards the remaining stations. -/
theorem get_stations_availability_spec (q : String → Except PyErr Int) (now : Int) :
    (∀ stations, (get_stations_availability q now stations).map Prod.fst = stations) ∧
    (∀ pre bad post, get_stations_availability q now (pre ++ bad :: post) =
      get_stations_availability q now pre ++
        (bad, avail_record_app q now bad) :: get_stations_availability q now post) ∧
    (∀ st e, q st = Except.error e →
      ∃ m, avail_record_app q now st = AvailRecord.failure m (station_label st)) ∧
    (∀ catalog stations,
      (∀ st ∈ stations, ∀ e, q st = Except.error e → ∃ m, e = PyErr.webServiceError m) →
      ∃ recs, pulsonic_get_availability q now catalog stations = Except.ok recs ∧
        recs.map Prod.fst = stations) ∧
    (∀ catalog bad rest e, q bad = Except.error e →
      (∀ m, e ≠ PyErr.webServiceError m) →
      pulsonic_get_availability q now catalog (bad :: rest) = Except.error e) := by
  refine ⟨?_, ?_, ?_, ?_, ?_⟩
  · intro stations
    simp only [get_stations_availability, List.map_map]
    exact List.map_id stations
  · intro pre bad post
    simp [get_stations_availability]
  · intro st e hq
    cases e with
    | webServiceError m => exact ⟨m, by simp [avail_record_app, hq]⟩
    | valueError m => exact ⟨"Erreur interne", by simp [avail_record_app, hq]⟩
    | otherError m => exact ⟨"Erreur interne", by simp [avail_record_app, hq]⟩
  · intro catalog stations hws
    induction stations with
    | nil => exact ⟨[], rfl, rfl⟩
    | cons st rest ih =>
      obtain ⟨recs, hrecs, hfst⟩ :=
        ih (fun s hs e he => hws s (List.mem_cons_of_mem _ hs) e he)
      have hstep : ∃ rec, avail_step_pulsonic q now catalog st = Except.ok rec := by
        cases hq : q st with
        | ok fd =>
          simp only [avail_step_pulsonic, hq]
          exact ⟨_, rfl⟩
        | error e =>
          obtain ⟨m, hm⟩ := hws st (List.mem_cons_self _ _) e hq
          subst hm
          simp only [avail_step_pulsonic, hq]
          exact ⟨_, rfl⟩
      obtain ⟨rec, hrec⟩ := hstep
      refine ⟨(st, rec) :: recs, ?_, by simp [hfst]⟩
      simp only [pulsonic_get_availability, hrec, hrecs]
      rfl
  · intro catalog bad rest e hq hns
    have hstep : avail_step_pulsonic q now catalog bad = Except.error e := by
      cases e with
      | webServiceError m => exact absurd rfl (hns m)
      | valueError m => simp [avail_step_pulsonic, hq]
      | otherError m => simp [avail_step_pulsonic, hq]
    simp [pulsonic_get_availability, hstep]

/-- C4 witness: the amended statement applied to concrete oracles — one
record per station around a failing middle station on the route; the
Pulsonic loop succeeding with one record per station when the only
failure is a `WebServiceError`; and the Pulsonic loop aborting on a
concrete non-`WebServiceError`. -/
theorem get_stations_availability_spec_witness :
    (get_stations_availability (fun _ => Except.error (PyErr.otherError "x")) 0
        (["CI_A"] ++ "CI_BAD" :: ["CI_C"]) =
      get_stations_availability (fun _ => Except.error (PyErr.otherError "x")) 0 ["CI_A"] ++
        ("CI_BAD",
          avail_record_app (fun _ => Except.error (PyErr.otherError "x")) 0 "CI_BAD") ::
          get_stations_availability (fun _ => Except.error (PyErr.otherError "x")) 0
            ["CI_C"]) ∧
    (∃ recs,
      pulsonic_get_availability
          (fun st => if st = "CI_A" then Except.error (PyErr.webServiceError "down")
            else Except.ok 0) 0 [] ["CI_A", "CI_B"] =
        Except.ok recs ∧ recs.map Prod.fst = ["CI_A", "CI_B"]) ∧
    pulsonic_get_availability
        (fun st => if st = "CI_A" then Except.error (PyErr.valueError "vb")
          else Except.ok 0) 0 [] ["CI_A", "CI_B"] =
      Except.error (PyErr.valueError "vb") := by
  refine ⟨?_, ?_, ?_⟩
  · exact (get_stations_availability_spec
      (fun _ => Except.error (PyErr.otherError "x")) 0).2.1 ["CI_A"] "CI_BAD" ["CI_C"]
  · refine (get_stations_availability_spec
      (fun st => if st = "CI_A" then Except.error (PyErr.webServiceError "down")
        else Except.ok 0) 0).2.2.2.1 [] ["CI_A", "CI_B"] ?_
    intro st hst e he
    fin_cases hst
    · rw [if_pos rfl] at he
      exact ⟨"down", (Except.error.inj he).symm⟩
    · rw [if_neg (by decide)] at he
      exact Except.noConfusion he
  · refine (get_stations_availability_spec
      (fun st => if st = "CI_A" then Except.error (PyErr.valueError "vb")
        else Except.ok 0) 0).2.2.2.2 [] "CI_A" ["CI_B"] (PyErr.valueError "vb")
      rfl ?_
    intro m
    exact PyErr.noConfusion

/-- Helper: when every fetch succeeds, the block loop succeeds and
attempts exactly one fetch per block. -/
theorem fetch_blocks_all_ok (fetch : String → Int → Int → Except PyErr (List DataPoint))
    (st : String) (h : ∀ s a b, ∃ pts, fetch s a b = Except.ok pts) :
    ∀ blocks, (∃ pts, (fetch_blocks fetch st blocks).1 = Except.ok pts) ∧
      (fetch_blocks fetch st blocks).2 = blocks.length := by
  intro blocks
  induction blocks with
  | nil => exact ⟨⟨[], rfl⟩, rfl⟩
  | cons b rest ih =>
    obtain ⟨⟨pts, hpts⟩, hn⟩ := ih
    obtain ⟨pb, hpb⟩ := h st b.1 b.2
    refine ⟨⟨pb ++ pts, ?_⟩, ?_⟩
    · simp only [fetch_blocks, hpb, hpts]
      rfl
    · simp only [fetch_blocks, hpb, List.length_cons]
      omega

/-- Helper: when every fetch succeeds, the station loop succeeds with one
entry per station in order and attempts `stations × blocks` fetches. -/
theorem fetch_stations_all_ok (fetch : String → Int → Int → Except PyErr (List DataPoint))
    (blocks : List (Int × Int)) (h : ∀ s a b, ∃ pts, fetch s a b = Except.ok pts) :
    ∀ stations, (∃ data, (fetch_stations fetch blocks stations).1 = Except.ok data ∧
      data.map Prod.fst = stations) ∧
      (fetch_stations fetch blocks stations).2 = stations.length * blocks.length := by
  intro stations
  induction stations with
  | nil => exact ⟨⟨[], rfl, rfl⟩, by simp [fetch_stations]⟩
  | cons st rest ih =>
    obtain ⟨⟨data, hdata, hfst⟩, hn⟩ := ih
    obtain ⟨⟨pts, hpts⟩, hbn⟩ := fetch_blocks_all_ok fetch st h blocks
    refine ⟨⟨(st, pts) :: data, ?_, by simp [hfst]⟩, ?_⟩
    · simp only [fetch_stations, hpts, hdata]
      rfl
    · have hsplit : (fetch_stations fetch blocks (st :: rest)).2 =
          (fetch_blocks fetch st blocks).2 + (fetch_stations fetch blocks rest).2 := by
        simp only [fetch_stations, hpts]
      rw [hsplit, hbn, hn, List.length_cons]
      ring

/-- C9 counterexample: a download request with an empty station list
passes validation, attempts no block fetch, and is answered 404
(no data), not 400; one with an empty parameter list passes validation
and proceeds to fetch blocks (one fetch here) and even succeeds — in
neither case is the request rejected as a validation error. -/
theorem download_validation_counterexample :
    download_data_route [] ["Temp._inst"] 0 86400 "H"
        (fun _ _ _ => Except.ok [⟨⟨2023, 1, 1, 0, 0⟩, []⟩]) =
      (DlResponse.notFound "Aucune donnée disponible pour la période sélectionnée", 0) ∧
    download_data_route ["CI_X"] [] 0 86400 "H"
        (fun _ _ _ => Except.ok [⟨⟨2023, 1, 1, 0, 0⟩, []⟩]) =
      (DlResponse.okCsv [["Station", "Date", "Heure"], ["X", "2023-01-01", "00:00"]], 1) ∧
    (∀ m, DlResponse.okCsv [["Station", "Date", "Heure"], ["X", "2023-01-01", "00:00"]] ≠
      DlResponse.badRequest m) := by
  refine ⟨rfl, rfl, fun m => DlResponse.noConfusion⟩

/-- C9 amended: a download request with `start ≥ end` is rejected 400
before any remote block fetch; empty station and parameter lists are
not rejected as validation errors — with `start < end` an empty station
list yields a 404 no-data response with no block fetch, and in general
(for an always-succeeding remote) the route attempts one fetch per
station per chunk and never answers 400, whatever the station or
parameter lists. -/
theorem download_data_route_spec (stations params : List String) (sd ed : Int)
    (g : String) (fetch : String → Int → Int → Except PyErr (List DataPoint)) :
    (ed ≤ sd → download_data_route stations params sd ed g fetch =
      (DlResponse.badRequest "La date de début doit être avant la date de fin", 0)) ∧
    (sd < ed → stations = [] → download_data_route stations params sd ed g fetch =
      (DlResponse.notFound "Aucune donnée disponible pour la période sélectionnée", 0)) ∧
    (sd < ed → (∀ s a b, ∃ pts, fetch s a b = Except.ok pts) →
      (download_data_route stations params sd ed g fetch).2 =
        stations.length * (split_date_range sd ed (GRANULARITY_LIMITS_get g)).length ∧
      (∀ m, (download_data_route stations params sd ed g fetch).1 ≠
        DlResponse.badRequest m)) := by
  refine ⟨?_, ?_, ?_⟩
  · intro h
    rw [download_data_route, if_pos h]
  · intro hlt hs
    subst hs
    rw [download_data_route, if_neg (by omega)]
    rfl
  · intro hlt hok
    obtain ⟨⟨data, hdata, hfst⟩, hcount⟩ :=
      fetch_stations_all_ok fetch (split_date_range sd ed (GRANULARITY_LIMITS_get g))
        hok stations
    constructor
    · simp only [download_data_route, if_neg (by omega : ¬ ed ≤ sd), hdata]
      split <;> exact hcount
    · intro m
      simp only [download_data_route, if_neg (by omega : ¬ ed ≤ sd), hdata]
      split <;> exact DlResponse.noConfusion

/-- C9 witness: the amended statement applied concretely — a reversed
date range is rejected with no fetch; an empty station list over one day
yields the 404 outcome with no fetch; and a one-station request with an
empty parameter list over one hourly chunk attempts exactly one fetch
and is not a 400. -/
theorem download_data_route_spec_witness :
    download_data_route ["CI_X"] ["p"] 5 3 "H" (fun _ _ _ => Except.ok []) =
      (DlResponse.badRequest "La date de début doit être avant la date de fin", 0) ∧
    download_data_route [] ["p"] 0 86400 "H" (fun _ _ _ => Except.ok []) =
      (DlResponse.notFound "Aucune donnée disponible pour la période sélectionnée", 0) ∧
    (download_data_route ["CI_X"] [] 0 86400 "H" (fun _ _ _ => Except.ok [])).2 =
      ["CI_X"].length * (split_date_range 0 86400 (GRANULARITY_LIMITS_get "H")).length ∧
    (∀ m, (download_data_route ["CI_X"] [] 0 86400 "H" (fun _ _ _ => Except.ok [])).1 ≠
      DlResponse.badRequest m) := by
  refine ⟨?_, ?_, ?_, ?_⟩
  · exact (download_data_route_spec ["CI_X"] ["p"] 5 3 "H" (fun _ _ _ => Except.ok [])).1
      (by decide)
  · exact (download_data_route_spec [] ["p"] 0 86400 "H" (fun _ _ _ => Except.ok [])).2.1
      (by decide) rfl
  · exact ((download_data_route_spec ["CI_X"] [] 0 86400 "H"
      (fun _ _ _ => Except.ok [])).2.2 (by decide) (fun _ _ _ => ⟨[], rfl⟩)).1
  · exact ((download_data_route_spec ["CI_X"] [] 0 86400 "H"
      (fun _ _ _ => Except.ok [])).2.2 (by decide) (fun _ _ _ => ⟨[], rfl⟩)).2
